import Mathlib

/-!
Shallow embedding of the UpNext session-state engine
(`src/resources/lib/state.py`, class `UpNextState`) together with proofs
about its popup-timing and next-item resolution logic.

Python numbers are modelled as rationals (true division is exact on `ℚ`);
Python `int()` truncation is `pyInt`.  Dictionaries pushed by plugins are
modelled as structures with `Option` fields; `utils.get_int(obj, key, d)`
becomes `Option.getD` with the corresponding default.  A Python call that
raises an uncaught exception is modelled by returning `none` from an
`Option`-valued function.  External collaborators (`api.*` query results)
are passed in as explicit oracle parameters.
-/

set_option maxRecDepth 10000

namespace UpNext

/-- Truncation toward zero, the semantics of Python `int()` on a number. -/
def pyInt (q : ℚ) : ℤ :=
  if 0 ≤ q then ⌊q⌋ else ⌈q⌉

/-- Tri-state `sim_cue` setting (`constants.SETTING_OFF` / `SETTING_ON` /
neither), compared in the source with `!= SETTING_OFF` and `== SETTING_ON`. -/
inductive SimCue where
  | forceOff : SimCue
  | forceOn : SimCue
  | natural : SimCue
deriving DecidableEq, Repr

/-- Raw video dictionary as returned by the api collaborators or contained in
a plugin payload; only the keys read by `state.py` are modelled. -/
structure RawVideo where
  mediatype : Option String
  season : Option ℤ
  playcount : Option ℤ
  showtitle : String
  set_name : String
deriving DecidableEq, Repr

/-- Plugin payload `self.data`; `notification_time` / `notification_offset`
are the integer timing fields read through `utils.get_int`, the `play_*`
flags record truthiness of the corresponding keys, and `next_video` /
`current_video` are the embedded video dictionaries. -/
structure PluginData where
  next_video : Option RawVideo
  current_video : Option RawVideo
  notification_time : Option ℤ
  notification_offset : Option ℤ
  play_direct : Bool
  play_url : Bool
  play_info : Bool
deriving DecidableEq, Repr

/-- Modelled from the spec: `utils.create_item_details` is not under `src/`.
Per the spec it normalizes a raw video into an ItemDetails descriptor whose
`group_name` is the show / season-set grouping identity (the set name for a
movie, the show title otherwise), keeping the raw details, the originating
source and the playlist position. -/
structure ItemDetails where
  group_name : String
  details : RawVideo
  source : Option String
  position : Option ℤ
deriving DecidableEq, Repr

/-- Modelled from the spec: normalization routine producing an `ItemDetails`
from one raw video shape plus its source classification. -/
def create_item_details (video : RawVideo) (source : String)
    (position : Option ℤ) : ItemDetails :=
  { group_name :=
      if video.mediatype = some "movie" then video.set_name else video.showtitle
    details := video
    source := some source
    position := position }

/-- Read-only configuration (`SETTINGS`), an external collaborator; only the
options read by the embedded operations appear.  `popup_durations` is the
duration table: an association list of (threshold key, duration value)
pairs standing for the Python dict. -/
structure Settings where
  unwatched_only : Bool
  detect_enabled : Bool
  detect_chapters : Bool
  detect_chapters_threshold : ℚ
  detect_period : ℚ
  enable_queue : Bool
  popup_durations : List (ℚ × ℚ)
  sim_cue : SimCue
  played_limit : ℤ
deriving DecidableEq, Repr

/-- Modelled from the spec: the `constants` module is not under `src/`.
`POPUP_MIN_DURATION` is the "configured minimum popup duration";
`SPECIALS` is the sentinel specials-season marker used by the
"Still Watching?" escalation rule. -/
structure Constants where
  POPUP_MIN_DURATION : ℚ
  SPECIALS : ℤ
deriving DecidableEq, Repr

/-- Mutable session state: one field per slot of `UpNextState.__slots__`.
`detect_time = none` models Python `None` (unset). -/
structure UpNextState where
  data : Option PluginData
  encoding : Option String
  current_item : ItemDetails
  filename : Option String
  total_time : ℚ
  next_item : Option ItemDetails
  popup_time : ℚ
  popup_cue : Bool
  detect_time : Option ℚ
  shuffle_on : Bool
  starting : ℤ
  tracking : Bool
  played_in_a_row : ℤ
  queued : Bool
  playing_next : Bool
  keep_playing : Bool
deriving DecidableEq, Repr

/-- Truthiness of an optional integer (Python `if x:` on an int-or-None). -/
def truthy (x : Option ℤ) : Bool :=
  match x with
  | none => false
  | some n => n ≠ 0

/-- Lookup of a key in the association-list model of a Python dict
(`none` models a `KeyError`). -/
def dictGet (d : List (ℚ × ℚ)) (k : ℚ) : Option ℚ :=
  (d.find? (fun p => decide (p.1 = k))).map Prod.snd

/-- Local `min_threshold` of `UpNextState.get_final_chapter_time`: the
percentage below which a chapter does not start within the last 10 seconds
of the video. -/
def min_threshold (total_time : ℚ) : ℚ :=
  if total_time > 10 then ((total_time - 10) / total_time) * 100 else 0

/-- Local `valid_chapters` of `UpNextState.get_final_chapter_time`: chapters
below `min_threshold` (end-of-video markers are dropped). -/
def valid_chapters (total_time : ℚ) (chapters : List ℚ) : List ℚ :=
  chapters.filter (fun c => decide (c < min_threshold total_time))

/-- Local `chapters_in_last_30` of `UpNextState.get_final_chapter_time`:
valid chapters at or past 70 percent of the duration. -/
def chapters_in_last_30 (total_time : ℚ) (chapters : List ℚ) : List ℚ :=
  (valid_chapters total_time chapters).filter (fun c => decide (70 ≤ c))

/-- Embedding of the static method `UpNextState.get_final_chapter_time`.
Chapter markers (percentages of the duration) are passed as a parsed list;
the source's string parsing and its `try`/`except` guard are outside the
model since a list input raises none of the caught exceptions. -/
def get_final_chapter_time (total_time : ℚ) (threshold : ℚ)
    (chapters : List ℚ) : Option ℤ :=
  if chapters.length < 2 then
    none
  else if (valid_chapters total_time chapters).length < 2 then
    none
  else if (chapters_in_last_30 total_time chapters).length = 1
      ∧ 90 ≤ (chapters_in_last_30 total_time chapters).headD 0 then
    some (pyInt
      ((chapters_in_last_30 total_time chapters).headD 0 / 100 * total_time))
  else if threshold ≤ (valid_chapters total_time chapters).getLastD 0 then
    some (pyInt
      ((valid_chapters total_time chapters).getLastD 0 / 100 * total_time))
  else
    none

/-- Modelled from the spec: classification bit constants of the missing
`constants` module; only their composition into four mutually
distinguishable categories matters, never the concrete values. -/
def PLUGIN_DATA_ERROR : ℤ := 1

/-- Modelled from the spec: "direct play requested" classification bit. -/
def PLUGIN_DIRECT : ℤ := 2

/-- Modelled from the spec: "playlist-next requested" classification bit. -/
def PLUGIN_PLAYLIST : ℤ := 4

/-- Modelled from the spec: "play-url provided" classification bit. -/
def PLUGIN_PLAY_URL : ℤ := 8

/-- Modelled from the spec: "play-info provided" classification bit. -/
def PLUGIN_PLAY_INFO : ℤ := 16

/-- Embedding of `UpNextState.get_plugin_type`: `none` when no plugin data
has been pushed, else the additive composition of the classification bits. -/
def get_plugin_type (s : UpNextState) (playlist_next : Bool) : Option ℤ :=
  match s.data with
  | none => none
  | some d =>
      let t := PLUGIN_DATA_ERROR
      let t := if d.play_direct then t + PLUGIN_DIRECT
               else if playlist_next then t + PLUGIN_PLAYLIST else t
      let t := if d.play_url then t + PLUGIN_PLAY_URL
               else if d.play_info then t + PLUGIN_PLAY_INFO else t
      some t

/-- Embedding of `UpNextState._set_detect_time`: clears `detect_time` when a
cue point was provided or end-credits detection is disabled, otherwise sets
it to the detection window start before the popup time. -/
def set_detect_time (cfg : Settings) (s : UpNextState) : UpNextState :=
  { s with detect_time :=
      if s.popup_cue ∨ ¬ cfg.detect_enabled then none
      else some (max 0 (s.popup_time - cfg.detect_period * s.total_time / 3600)) }

/-- Embedding of `UpNextState.set_detected_popup_time`: a non-zero detected
time overrides the popup time and enables the cue point unless sim mode
forces it off; a zero detected time resets the popup time only. -/
def set_detected_popup_time (cfg : Settings) (s : UpNextState)
    (detected_time : ℚ) : UpNextState :=
  if detected_time ≠ 0 then
    set_detect_time cfg
      { s with popup_time := detected_time
               popup_cue := (cfg.sim_cue ≠ SimCue.forceOff) }
  else
    set_detect_time cfg { s with popup_time := 0 }

/-- Chapter-detection block of `UpNextState.set_popup_time` (the body of
`if SETTINGS.detect_chapters:`): yields the pending popup time (0 when no
truthy chapter time was found) together with the state, whose `popup_cue`
is updated only when a chapter time was accepted. -/
def chapter_popup (cfg : Settings) (T : ℚ) (chapters : List ℚ)
    (s : UpNextState) : ℚ × UpNextState :=
  if cfg.detect_chapters
      ∧ truthy (get_final_chapter_time T cfg.detect_chapters_threshold chapters) then
    (((get_final_chapter_time T cfg.detect_chapters_threshold chapters).getD 0 : ℚ),
     { s with popup_cue := (cfg.sim_cue = SimCue.forceOn) })
  else (0, s)

/-- Raw plugin popup time of `UpNextState.set_popup_time` before the
rejection check: the `notification_offset` is read first, overwritten by
`total_time - notification_time` whenever that duration is at least
`POPUP_MIN_DURATION` and below the total time. -/
def plugin_raw_time (C : Constants) (d : PluginData) (T : ℚ) : ℚ :=
  if C.POPUP_MIN_DURATION ≤ ((d.notification_time.getD 0 : ℤ) : ℚ)
      ∧ ((d.notification_time.getD 0 : ℤ) : ℚ) < T then
    T - ((d.notification_time.getD 0 : ℤ) : ℚ)
  else ((d.notification_offset.getD 0 : ℤ) : ℚ)

/-- Plugin-timing block of `UpNextState.set_popup_time` as a pure function of
the plugin payload and the effective total time: the raw plugin time is
reset to 0 unless it lies in `(0, T - POPUP_MIN_DURATION]`. -/
def plugin_popup_time (C : Constants) (d : PluginData) (T : ℚ) : ℚ :=
  if 0 < plugin_raw_time C d T
      ∧ plugin_raw_time C d T ≤ T - C.POPUP_MIN_DURATION then
    plugin_raw_time C d T
  else 0

/-- Lift of `plugin_popup_time` to the optional plugin payload of the state
(0 when no payload is present; the branch is only reached with a payload). -/
def plugin_popup_data (C : Constants) (od : Option PluginData) (T : ℚ) : ℚ :=
  match od with
  | none => 0
  | some d => plugin_popup_time C d T

/-- Composition of the chapter block with the plugin block of
`UpNextState.set_popup_time` (the body of
`if not popup_time and self.get_plugin_type():`): `popup_cue` is enabled
(unless sim mode forces it off) exactly when the plugin time is accepted. -/
def plugin_step (C : Constants) (cfg : Settings) (T : ℚ)
    (ps : ℚ × UpNextState) : ℚ × UpNextState :=
  if ps.1 = 0 ∧ truthy (get_plugin_type ps.2 false) then
    if plugin_popup_data C ps.2.data T ≠ 0 then
      (plugin_popup_data C ps.2.data T,
       { ps.2 with popup_cue := (cfg.sim_cue ≠ SimCue.forceOff) })
    else (0, ps.2)
  else ps

/-- Fallback duration selection of `UpNextState.set_popup_time`:
`SETTINGS.popup_durations[max(0, 0, *[d for d in SETTINGS.popup_durations if
total_time > d])]`.  `none` models the `KeyError` raised when the selected
key is absent from the table. -/
def fallback_popup_duration (cfg : Settings) (T : ℚ) : Option ℚ :=
  let qualifying := (cfg.popup_durations.map Prod.fst).filter
    (fun k => decide (k < T))
  dictGet cfg.popup_durations (qualifying.foldl max 0)

/-- Fallback block of `UpNextState.set_popup_time` (the body of
`if not popup_time:`): the selected duration before the end when it is at
least `POPUP_MIN_DURATION` and below the total time, else the default
`POPUP_MIN_DURATION` before the end; the cue point is disabled unless sim
mode forces it on. -/
def fallback_popup (C : Constants) (cfg : Settings) (T : ℚ) :
    Option (ℚ × Bool) :=
  match fallback_popup_duration cfg T with
  | none => none
  | some popup_duration =>
      some (if C.POPUP_MIN_DURATION ≤ popup_duration ∧ popup_duration < T then
              T - popup_duration
            else T - C.POPUP_MIN_DURATION,
            cfg.sim_cue = SimCue.forceOn)

/-- Effective total time used by `UpNextState.set_popup_time`: a 1 second
offset is applied when queueing is enabled, to avoid a race with Kodi
playlist handling. -/
def effective_total (cfg : Settings) (total_time : ℚ) : ℚ :=
  if cfg.enable_queue then total_time - 1 else total_time

/-- First two blocks of `UpNextState.set_popup_time` (chapter detection then
plugin timing), applied to the state whose `total_time` has been stored. -/
def popup_pipeline (C : Constants) (cfg : Settings) (chapters : List ℚ)
    (s : UpNextState) (total_time : ℚ) : ℚ × UpNextState :=
  plugin_step C cfg (effective_total cfg total_time)
    (chapter_popup cfg (effective_total cfg total_time) chapters
      { s with total_time := total_time })

/-- Embedding of `UpNextState.set_popup_time`.  The parsed chapter markers
are passed explicitly (the source reads them inside
`get_final_chapter_time`); `none` models an uncaught exception (the
`KeyError` of the fallback table lookup). -/
def set_popup_time (C : Constants) (cfg : Settings) (chapters : List ℚ)
    (s : UpNextState) (total_time : ℚ) : Option UpNextState :=
  if (popup_pipeline C cfg chapters s total_time).1 ≠ 0 then
    some (set_detect_time cfg
      { (popup_pipeline C cfg chapters s total_time).2 with
        popup_time := (popup_pipeline C cfg chapters s total_time).1 })
  else
    match fallback_popup C cfg (effective_total cfg total_time) with
    | none => none
    | some pc =>
        some (set_detect_time cfg
          { (popup_pipeline C cfg chapters s total_time).2 with
            popup_time := pc.1, popup_cue := pc.2 })

/-- Modelled from the spec: `utils.get_int(next_video, 'playcount')` with the
implicit undefined default (-1) applied when the video or its play count is
absent (malformed or missing numeric fields are treated as the default). -/
def playcount_int (v : Option RawVideo) : ℤ :=
  match v with
  | none => -1
  | some nv => nv.playcount.getD (-1)

/-- Oracle results of the external api collaborators consumed by
`UpNextState.get_next`: the next playlist position, the playlist query
result, and the library query result. -/
structure GetNextEnv where
  next_position : Option ℤ
  playlist_video : Option RawVideo
  library_video : Option RawVideo
deriving DecidableEq, Repr

/-- Tail of `UpNextState.get_next` (lines `if next_video: ...` onwards):
stores the normalized next item when a next video was found and returns the
stored `next_item` field. -/
def store_next_item (s : UpNextState) (next_video : Option RawVideo)
    (source : String) (position : Option ℤ) : UpNextState × Option ItemDetails :=
  match next_video with
  | some nv =>
      let item := create_item_details nv source position
      ({ s with next_item := some item }, some item)
  | none => (s, s.next_item)

/-- Embedding of `UpNextState.get_next`, returning the updated state paired
with the returned value. -/
def get_next (C : Constants) (cfg : Settings) (env : GetNextEnv)
    (s : UpNextState) : UpNextState × Option ItemDetails :=
  let next_position := env.next_position
  let plugin_type := get_plugin_type s (truthy next_position)
  if truthy plugin_type then
    let next_video := s.data.bind PluginData.next_video
    let next_video :=
      if cfg.unwatched_only ∧ 0 < playcount_int next_video then none
      else next_video
    store_next_item s next_video "plugin" next_position
  else if truthy next_position ∧ ¬ s.shuffle_on then
    store_next_item s env.playlist_video "playlist" next_position
  else
    let next_video := env.library_video
    let s2 :=
      match next_video with
      | some nv =>
          if nv.mediatype = some "movie"
              ∨ (¬ s.shuffle_on ∧
                 ({some C.SPECIALS, nv.season, s.current_item.details.season} :
                   Finset (Option ℤ)).card = 3) then
            { s with played_in_a_row := cfg.played_limit }
          else s
      | none => s
    store_next_item s2 next_video "library" next_position

/-- Oracle results of the external api collaborators consumed by
`UpNextState.process_now_playing`: the live now-playing query, the playlist
query, and the outcome of the library now-playing reconciliation
(`_get_library_now_playing`, whose internal api traffic is not needed by
the properties stated below). -/
structure NowPlayingEnv where
  api_now_playing : Option RawVideo
  playlist_video : Option RawVideo
  library_now_playing : Option RawVideo
deriving DecidableEq, Repr

/-- Embedding of `UpNextState._get_plugin_now_playing`: the payload's
`current_video` when present, else the live now-playing query result, and
`none` when no plugin data was pushed. -/
def get_plugin_now_playing (s : UpNextState)
    (api_now_playing : Option RawVideo) : Option RawVideo :=
  match s.data with
  | none => none
  | some d =>
      match d.current_video with
      | some cv => some cv
      | none => api_now_playing

/-- Branch structure of `UpNextState.process_now_playing` selecting the new
video and its source classification. -/
def now_playing_resolution (env : NowPlayingEnv) (s : UpNextState)
    (playlist_position : Option ℤ) (plugin_type : Option ℤ) :
    Option RawVideo × Option String :=
  if truthy plugin_type then
    (get_plugin_now_playing s env.api_now_playing, some "plugin")
  else if truthy playlist_position then
    (env.playlist_video, some "playlist")
  else
    (env.library_now_playing,
     if env.library_now_playing.isSome then some "library" else none)

/-- Embedding of `UpNextState.process_now_playing`, returning the updated
state paired with the returned current item. -/
def process_now_playing (env : NowPlayingEnv) (s : UpNextState)
    (playlist_position : Option ℤ) (plugin_type : Option ℤ) :
    UpNextState × ItemDetails :=
  match now_playing_resolution env s playlist_position plugin_type with
  | (some nv, some source) =>
      let new_item := create_item_details nv source playlist_position
      let s2 :=
        if new_item.group_name ≠ s.current_item.group_name then
          { s with played_in_a_row := 1 }
        else s
      ({ s2 with current_item := new_item }, new_item)
  | (some _, none) => (s, s.current_item)
  | (none, _) => (s, s.current_item)

/-! Concrete fixtures used to instantiate the theorems below. -/

/-- Episode of season 1 of the show used by the fixtures. -/
def exEpisode : RawVideo :=
  { mediatype := some "episode", season := some 1, playcount := none,
    showtitle := "Show", set_name := "" }

/-- Current item wrapping `exEpisode`. -/
def exItem : ItemDetails :=
  { group_name := "Show", details := exEpisode,
    source := some "library", position := none }

/-- Session state as left by `UpNextState.__init__` except for a current
item, with no plugin data pushed. -/
def exState : UpNextState :=
  { data := none, encoding := some "base64", current_item := exItem,
    filename := none, total_time := 0, next_item := none, popup_time := 0,
    popup_cue := false, detect_time := some 0, shuffle_on := false,
    starting := 0, tracking := false, played_in_a_row := 1, queued := false,
    playing_next := false, keep_playing := false }

/-- Configuration with the spec's example duration table and natural cue
simulation. -/
def exSettings : Settings :=
  { unwatched_only := false, detect_enabled := true, detect_chapters := false,
    detect_chapters_threshold := 80, detect_period := 300,
    enable_queue := false,
    popup_durations := [(0, 0), (300, 60), (1200, 180)],
    sim_cue := SimCue.natural, played_limit := 3 }

/-- Constants fixture: minimum popup duration 5 seconds, specials season 0. -/
def exConstants : Constants :=
  { POPUP_MIN_DURATION := 5, SPECIALS := 0 }

/-- Plugin payload whose next video has been watched once. -/
def exPluginWatched : PluginData :=
  { next_video := some { exEpisode with playcount := some 1 },
    current_video := none, notification_time := none,
    notification_offset := none,
    play_direct := false, play_url := false, play_info := false }

/-- Plugin payload supplying both a notification offset and a notification
duration. -/
def exPluginTimed : PluginData :=
  { next_video := none, current_video := none,
    notification_time := some 60, notification_offset := some 500,
    play_direct := false, play_url := false, play_info := false }

/-- Chapters surviving the claim's "discard chapters starting within the
last 10 seconds of the video" rule, stated directly in seconds: a chapter
at `c` percent starts at `c / 100 * total_time` seconds. -/
def credits_candidates (T : ℚ) (chapters : List ℚ) : List ℚ :=
  chapters.filter (fun c => decide (c / 100 * T < T - 10))

/-- State produced by `set_popup_time` on the fixture configuration at a
total time of 1800 seconds. -/
def exPopupResult : UpNextState :=
  { exState with total_time := 1800, popup_time := 1620, popup_cue := false, detect_time := some 1470 }

/-! Structural lemmas about the popup-timing pipeline. -/

theorem set_detect_time_eq (cfg : Settings) (s : UpNextState) :
    ∃ o, set_detect_time cfg s = { s with detect_time := o } :=
  ⟨_, rfl⟩

theorem chapter_popup_snd (cfg : Settings) (T : ℚ) (chapters : List ℚ)
    (s : UpNextState) :
    ∃ b, (chapter_popup cfg T chapters s).2 = { s with popup_cue := b } := by
  unfold chapter_popup
  split
  · exact ⟨_, rfl⟩
  · exact ⟨s.popup_cue, rfl⟩

theorem plugin_step_snd (C : Constants) (cfg : Settings) (T : ℚ)
    (ps : ℚ × UpNextState) :
    ∃ b, (plugin_step C cfg T ps).2 = { ps.2 with popup_cue := b } := by
  unfold plugin_step
  split
  · split
    · exact ⟨_, rfl⟩
    · exact ⟨ps.2.popup_cue, rfl⟩
  · exact ⟨ps.2.popup_cue, rfl⟩

theorem popup_pipeline_snd (C : Constants) (cfg : Settings)
    (chapters : List ℚ) (s : UpNextState) (total_time : ℚ) :
    ∃ b, (popup_pipeline C cfg chapters s total_time).2 =
      { s with total_time := total_time, popup_cue := b } := by
  obtain ⟨b1, h1⟩ := chapter_popup_snd cfg (effective_total cfg total_time)
    chapters { s with total_time := total_time }
  obtain ⟨b2, h2⟩ := plugin_step_snd C cfg (effective_total cfg total_time)
    (chapter_popup cfg (effective_total cfg total_time) chapters
      { s with total_time := total_time })
  refine ⟨b2, ?_⟩
  unfold popup_pipeline
  rw [h2, h1]

theorem set_popup_time_shape (C : Constants) (cfg : Settings)
    (chapters : List ℚ) (s : UpNextState) (total_time : ℚ)
    (st : UpNextState)
    (h : set_popup_time C cfg chapters s total_time = some st) :
    ∃ pt b o, st = { s with total_time := total_time, popup_time := pt, popup_cue := b, detect_time := o } := by
  obtain ⟨b, hb⟩ := popup_pipeline_snd C cfg chapters s total_time
  unfold set_popup_time at h
  split at h
  · injection h with h
    obtain ⟨o, ho⟩ := set_detect_time_eq cfg
      { (popup_pipeline C cfg chapters s total_time).2 with
        popup_time := (popup_pipeline C cfg chapters s total_time).1 }
    rw [ho, hb] at h
    exact ⟨_, b, o, h.symm⟩
  · rcases hfb : fallback_popup C cfg (effective_total cfg total_time)
      with _ | pc
    · rw [hfb] at h
      exact absurd h (by simp)
    · rw [hfb] at h
      injection h with h
      obtain ⟨o, ho⟩ := set_detect_time_eq cfg
        { (popup_pipeline C cfg chapters s total_time).2 with
          popup_time := pc.1, popup_cue := pc.2 }
      rw [ho, hb] at h
      exact ⟨_, _, o, h.symm⟩


theorem set_detect_time_popup_time (cfg : Settings) (s : UpNextState) :
    (set_detect_time cfg s).popup_time = s.popup_time := rfl

theorem set_detect_time_total_time (cfg : Settings) (s : UpNextState) :
    (set_detect_time cfg s).total_time = s.total_time := rfl

theorem set_detect_time_popup_cue (cfg : Settings) (s : UpNextState) :
    (set_detect_time cfg s).popup_cue = s.popup_cue := rfl

theorem truthy_iff (x : Option ℤ) :
    truthy x = true ↔ ∃ n, x = some n ∧ n ≠ 0 := by
  unfold truthy
  rcases x with _ | n <;> simp

theorem chapter_popup_zero_snd (cfg : Settings) (T : ℚ) (chapters : List ℚ)
    (s : UpNextState) (h : (chapter_popup cfg T chapters s).1 = 0) :
    (chapter_popup cfg T chapters s).2 = s := by
  unfold chapter_popup at h ⊢
  split
  · next hc =>
      rw [if_pos hc] at h
      exfalso
      obtain ⟨n, hg, hn⟩ := (truthy_iff _).mp hc.2
      rw [hg] at h
      simp only [Option.getD_some] at h
      exact hn (by exact_mod_cast h)
  · rfl

theorem plugin_popup_time_cases (C : Constants) (d : PluginData) (T : ℚ) :
    plugin_popup_time C d T = 0
    ∨ (0 < plugin_popup_time C d T
       ∧ plugin_popup_time C d T ≤ T - C.POPUP_MIN_DURATION) := by
  unfold plugin_popup_time
  split
  · next hc => exact Or.inr (by simpa using hc)
  · exact Or.inl rfl

theorem get_plugin_type_truthy (s : UpNextState) (b : Bool) :
    truthy (get_plugin_type s b) = s.data.isSome := by
  unfold get_plugin_type truthy
  rcases s.data with _ | d
  · rfl
  · simp only [Option.isSome_some]
    split_ifs <;> norm_num [PLUGIN_DATA_ERROR, PLUGIN_DIRECT, PLUGIN_PLAYLIST, PLUGIN_PLAY_URL, PLUGIN_PLAY_INFO]

theorem store_next_item_shape (s : UpNextState) (v : Option RawVideo)
    (src : String) (pos : Option ℤ) :
    ∃ ni, (store_next_item s v src pos).1 = { s with next_item := ni } := by
  unfold store_next_item
  rcases v with _ | nv
  · exact ⟨s.next_item, rfl⟩
  · exact ⟨_, rfl⟩

theorem store_next_item_none (s : UpNextState) (src : String)
    (pos : Option ℤ) :
    store_next_item s none src pos = (s, s.next_item) := rfl



/-- C10: `set_popup_time` modifies only the `total_time`, `popup_time`,
`popup_cue` and `detect_time` fields of the session state; every other
field (data, encoding, current_item, next_item, shuffle_on, filename,
starting, tracking, played_in_a_row, queued, playing_next, keep_playing)
is unchanged by the call. -/
theorem C10_set_popup_time_frame (C : Constants) (cfg : Settings)
    (chapters : List ℚ) (s : UpNextState) (total_time : ℚ)
    (st : UpNextState)
    (h : set_popup_time C cfg chapters s total_time = some st) :
    st.data = s.data ∧ st.encoding = s.encoding
      ∧ st.current_item = s.current_item ∧ st.next_item = s.next_item
      ∧ st.shuffle_on = s.shuffle_on ∧ st.filename = s.filename
      ∧ st.starting = s.starting ∧ st.tracking = s.tracking
      ∧ st.played_in_a_row = s.played_in_a_row ∧ st.queued = s.queued
      ∧ st.playing_next = s.playing_next
      ∧ st.keep_playing = s.keep_playing := by
  obtain ⟨pt, b, o, rfl⟩ :=
    set_popup_time_shape C cfg chapters s total_time st h
  exact ⟨rfl, rfl, rfl, rfl, rfl, rfl, rfl, rfl, rfl, rfl, rfl, rfl⟩

/-- Witness for C10 at the fixture configuration and a 1800 second video. -/
theorem C10_witness :
    exPopupResult.data = exState.data
      ∧ exPopupResult.encoding = exState.encoding
      ∧ exPopupResult.current_item = exState.current_item
      ∧ exPopupResult.next_item = exState.next_item
      ∧ exPopupResult.shuffle_on = exState.shuffle_on
      ∧ exPopupResult.filename = exState.filename
      ∧ exPopupResult.starting = exState.starting
      ∧ exPopupResult.tracking = exState.tracking
      ∧ exPopupResult.played_in_a_row = exState.played_in_a_row
      ∧ exPopupResult.queued = exState.queued
      ∧ exPopupResult.playing_next = exState.playing_next
      ∧ exPopupResult.keep_playing = exState.keep_playing :=
  C10_set_popup_time_frame exConstants exSettings [] exState 1800
    exPopupResult (by with_unfolding_all rfl)

/-- C9 (failing input): with an empty `popup_durations` table, or with a
table whose thresholds are all at least the total time and that has no
threshold-0 entry, `set_popup_time` raises an uncaught `KeyError` (modelled
as `none`) instead of returning a value. -/
theorem C9_fallback_keyerror :
    set_popup_time exConstants
        { exSettings with popup_durations := [] } [] exState 1800 = none
    ∧ set_popup_time exConstants
        { exSettings with popup_durations := [(300, 60)] } [] exState 200 =
      none := by
  constructor
  · with_unfolding_all rfl
  · with_unfolding_all rfl



theorem set_detect_time_spec (cfg : Settings) (s : UpNextState) :
    ((set_detect_time cfg s).detect_time = none
      ↔ ((set_detect_time cfg s).popup_cue = true
          ∨ cfg.detect_enabled = false))
    ∧ ((set_detect_time cfg s).popup_cue = false →
        cfg.detect_enabled = true →
        (set_detect_time cfg s).detect_time =
          some (max 0 ((set_detect_time cfg s).popup_time
            - cfg.detect_period * (set_detect_time cfg s).total_time / 3600))) := by
  rw [set_detect_time_popup_cue, set_detect_time_popup_time,
    set_detect_time_total_time]
  unfold set_detect_time
  constructor
  · show (if s.popup_cue ∨ ¬ cfg.detect_enabled then none
        else some (max 0 (s.popup_time - cfg.detect_period * s.total_time / 3600))) = none ↔ _
    split
    · next hc =>
        simp only [true_iff]
        rcases hc with hc | hc
        · exact Or.inl hc
        · exact Or.inr (by simpa using hc)
    · next hc =>
        push_neg at hc
        simp only [reduceCtorEq, false_iff]
        push_neg
        exact ⟨by simpa using hc.1, by simp [hc.2]⟩
  · intro hcue hen
    show (if s.popup_cue ∨ ¬ cfg.detect_enabled then none else _) = _
    rw [if_neg]
    push_neg
    exact ⟨by simp [hcue], by simp [hen]⟩

theorem set_popup_time_is_detect (C : Constants) (cfg : Settings)
    (chapters : List ℚ) (s : UpNextState) (total_time : ℚ)
    (st : UpNextState)
    (h : set_popup_time C cfg chapters s total_time = some st) :
    ∃ s2, st = set_detect_time cfg s2 := by
  unfold set_popup_time at h
  split at h
  · injection h with h
    exact ⟨_, h.symm⟩
  · rcases hfb : fallback_popup C cfg (effective_total cfg total_time)
      with _ | pc
    · rw [hfb] at h
      exact absurd h (by simp)
    · rw [hfb] at h
      injection h with h
      exact ⟨_, h.symm⟩

/-- C6: after every popup-time update (by `set_popup_time` or by
`set_detected_popup_time`), `detect_time` is unset exactly when `popup_cue`
is set or end-credit detection is disabled; otherwise `detect_time` equals
`max 0 (popup_time - detect_period * total_time / 3600)`, so `popup_cue`
and a set `detect_time` are mutually exclusive. -/
theorem C6_detect_cue_exclusive :
    (∀ C cfg chapters s tt st,
      set_popup_time C cfg chapters s tt = some st →
      ((st.detect_time = none
          ↔ (st.popup_cue = true ∨ cfg.detect_enabled = false))
        ∧ (st.popup_cue = false → cfg.detect_enabled = true →
            st.detect_time = some (max 0 (st.popup_time
              - cfg.detect_period * st.total_time / 3600)))))
    ∧ (∀ cfg s dt,
      ((set_detected_popup_time cfg s dt).detect_time = none
          ↔ ((set_detected_popup_time cfg s dt).popup_cue = true
              ∨ cfg.detect_enabled = false))
        ∧ ((set_detected_popup_time cfg s dt).popup_cue = false →
            cfg.detect_enabled = true →
            (set_detected_popup_time cfg s dt).detect_time =
              some (max 0 ((set_detected_popup_time cfg s dt).popup_time
                - cfg.detect_period
                  * (set_detected_popup_time cfg s dt).total_time / 3600)))) := by
  constructor
  · intro C cfg chapters s tt st h
    obtain ⟨s2, rfl⟩ :=
      set_popup_time_is_detect C cfg chapters s tt st h
    exact set_detect_time_spec cfg s2
  · intro cfg s dt
    unfold set_detected_popup_time
    split
    · exact set_detect_time_spec cfg _
    · exact set_detect_time_spec cfg _

/-- Witness for C6: on the fixture run the cue is off, detection enabled,
and `detect_time` equals the computed window start (1470 seconds). -/
theorem C6_witness :
    exPopupResult.detect_time = some (max 0 (exPopupResult.popup_time
      - exSettings.detect_period * exPopupResult.total_time / 3600)) :=
  (C6_detect_cue_exclusive.1 exConstants exSettings [] exState 1800
      exPopupResult (by with_unfolding_all rfl)).2 rfl rfl



/-- C8: whenever `process_now_playing` resolves a new item,
`played_in_a_row` is reset to exactly 1 when the new item's `group_name`
differs from the current item's and preserved otherwise, and
`current_item` is replaced unconditionally by the new item (which is also
returned); when no new item is resolved, the state is unchanged and the
existing current item is returned. -/
theorem C8_process_now_playing (env : NowPlayingEnv) (s : UpNextState)
    (pp pt : Option ℤ) :
    (∀ nv src, now_playing_resolution env s pp pt = (some nv, some src) →
      process_now_playing env s pp pt =
        ({ s with current_item := create_item_details nv src pp, played_in_a_row := if (create_item_details nv src pp).group_name ≠ s.current_item.group_name then 1 else s.played_in_a_row },
         create_item_details nv src pp))
    ∧ ((now_playing_resolution env s pp pt).1 = none
        ∨ (now_playing_resolution env s pp pt).2 = none →
      process_now_playing env s pp pt = (s, s.current_item)) := by
  constructor
  · intro nv src hres
    unfold process_now_playing
    rw [hres]
    show ({ (if (create_item_details nv src pp).group_name ≠ s.current_item.group_name then { s with played_in_a_row := 1 } else s) with current_item := create_item_details nv src pp }, create_item_details nv src pp) = _
    split
    · rfl
    · rfl
  · intro hres
    unfold process_now_playing
    rcases hv : now_playing_resolution env s pp pt with ⟨v, os⟩
    rw [hv] at hres
    rcases v with _ | nv
    · rcases os with _ | src <;> rfl
    · rcases os with _ | src
      · rfl
      · rcases hres with hres | hres <;> exact absurd hres (by simp)

/-- Witness for C8: a library-resolved episode of a different show resets
the in-a-row count to 1 and replaces the current item. -/
theorem C8_witness :
    process_now_playing { api_now_playing := none, playlist_video := none, library_now_playing := some { exEpisode with showtitle := "Other" } } { exState with played_in_a_row := 2 } none none =
      ({ exState with played_in_a_row := 1, current_item := create_item_details { exEpisode with showtitle := "Other" } "library" none },
       create_item_details { exEpisode with showtitle := "Other" } "library" none) := by
  have h := (C8_process_now_playing
    { api_now_playing := none, playlist_video := none, library_now_playing := some { exEpisode with showtitle := "Other" } }
    { exState with played_in_a_row := 2 } none none).1
    { exEpisode with showtitle := "Other" } "library"
    (by with_unfolding_all rfl)
  rw [h]
  with_unfolding_all rfl



theorem store_next_item_played (s : UpNextState) (v : Option RawVideo)
    (src : String) (pos : Option ℤ) :
    (store_next_item s v src pos).1.played_in_a_row = s.played_in_a_row := by
  obtain ⟨ni, h⟩ := store_next_item_shape s v src pos
  rw [h]

/-- C3 (corrected): when `get_next` resolves no next video, the state is
left unchanged and the previously stored `next_item` is returned (the unset
sentinel only when none had been stored); in particular a plugin-supplied
next video with a non-zero play count under "unwatched only" is discarded
and treated as no next item. -/
theorem C3_get_next_no_video (C : Constants) (cfg : Settings)
    (env : GetNextEnv) (s : UpNextState) :
    (s.data.isSome = true →
      (s.data.bind PluginData.next_video = none
        ∨ (cfg.unwatched_only = true
           ∧ 0 < playcount_int (s.data.bind PluginData.next_video))) →
      get_next C cfg env s = (s, s.next_item))
    ∧ (s.data = none → truthy env.next_position = true →
        s.shuffle_on = false → env.playlist_video = none →
        get_next C cfg env s = (s, s.next_item))
    ∧ (s.data = none →
        (truthy env.next_position = false ∨ s.shuffle_on = true) →
        env.library_video = none →
        get_next C cfg env s = (s, s.next_item)) := by
  refine ⟨?_, ?_, ?_⟩
  · intro hd hdisc
    simp only [get_next]
    rw [get_plugin_type_truthy, hd, if_pos rfl]
    rcases hdisc with hnone | ⟨hu, hpc⟩
    · rw [hnone]
      split
      · exact store_next_item_none s "plugin" env.next_position
      · exact store_next_item_none s "plugin" env.next_position
    · rw [if_pos ⟨hu, hpc⟩]
      exact store_next_item_none s "plugin" env.next_position
  · intro hd hpos hshuf hpl
    simp only [get_next]
    rw [get_plugin_type_truthy, hd]
    simp only [Option.isSome_none, Bool.false_eq_true, if_false]
    rw [if_pos ⟨hpos, by simp [hshuf]⟩, hpl]
    exact store_next_item_none s "playlist" env.next_position
  · intro hd hcond hlib
    simp only [get_next]
    rw [get_plugin_type_truthy, hd]
    simp only [Option.isSome_none, Bool.false_eq_true, if_false]
    rw [if_neg, hlib]
    · exact store_next_item_none s "library" env.next_position
    · rcases hcond with hc | hc
      · intro hcon
        rw [hc] at hcon
        exact Bool.noConfusion hcon.1
      · intro hcon
        exact hcon.2 (by simp [hc])

/-- Witness for C3 (corrected): a watched plugin next video under
"unwatched only" leaves the state unchanged and returns the stored
next item. -/
theorem C3_witness :
    get_next exConstants { exSettings with unwatched_only := true }
        { next_position := none, playlist_video := none, library_video := none }
        { exState with data := some exPluginWatched } =
      ({ exState with data := some exPluginWatched },
       ({ exState with data := some exPluginWatched } : UpNextState).next_item) :=
  (C3_get_next_no_video exConstants { exSettings with unwatched_only := true }
      { next_position := none, playlist_video := none, library_video := none }
      { exState with data := some exPluginWatched }).1
    (by with_unfolding_all rfl)
    (Or.inr ⟨rfl, of_decide_eq_true (by with_unfolding_all rfl)⟩)

/-- C3 counterexample: in a session state whose `next_item` is already set,
discarding the plugin-supplied watched next video makes `get_next` return
the stale stored item, not the unset sentinel the claim demands. -/
theorem C3_counterexample :
    (get_next exConstants { exSettings with unwatched_only := true }
        { next_position := none, playlist_video := none, library_video := none }
        { exState with data := some exPluginWatched, next_item := some exItem }).2 =
      some exItem
    ∧ some exItem ≠ (none : Option ItemDetails) := by
  constructor
  · with_unfolding_all rfl
  · intro h
    exact Option.noConfusion h



/-- C7: when `get_next` resolves the next item from the library source,
`played_in_a_row` is forced to the configured played limit exactly when the
next video is a movie, or when shuffle is off and the set of the specials
sentinel, the next video's season and the current item's season has exactly
three distinct values; in all other cases (including the plugin and
playlist branches) `played_in_a_row` is unchanged. -/
theorem C7_played_limit (C : Constants) (cfg : Settings) (env : GetNextEnv)
    (s : UpNextState) :
    (s.data = none →
      (truthy env.next_position = false ∨ s.shuffle_on = true) →
      (∀ nv, env.library_video = some nv →
        (get_next C cfg env s).1.played_in_a_row =
          (if nv.mediatype = some "movie" ∨ (¬ s.shuffle_on ∧ ({some C.SPECIALS, nv.season, s.current_item.details.season} : Finset (Option ℤ)).card = 3) then cfg.played_limit else s.played_in_a_row))
      ∧ (env.library_video = none →
        (get_next C cfg env s).1.played_in_a_row = s.played_in_a_row))
    ∧ (s.data.isSome = true →
        (get_next C cfg env s).1.played_in_a_row = s.played_in_a_row)
    ∧ (s.data = none → truthy env.next_position = true →
        s.shuffle_on = false →
        (get_next C cfg env s).1.played_in_a_row = s.played_in_a_row) := by
  refine ⟨fun hd hcond => ?_, ?_, ?_⟩
  · have hnc : ¬ (truthy env.next_position = true ∧ ¬ s.shuffle_on = true) := by
      rcases hcond with hc | hc
      · intro hcon
        rw [hc] at hcon
        exact Bool.noConfusion hcon.1
      · intro hcon
        exact hcon.2 (by simp [hc])
    constructor
    · intro nv hnv
      simp only [get_next]
      rw [get_plugin_type_truthy, hd]
      simp only [Option.isSome_none, Bool.false_eq_true, if_false]
      rw [if_neg hnc, hnv, store_next_item_played]
      dsimp only
      split
      · rfl
      · rfl
    · intro hnv
      simp only [get_next]
      rw [get_plugin_type_truthy, hd]
      simp only [Option.isSome_none, Bool.false_eq_true, if_false]
      rw [if_neg hnc, hnv, store_next_item_played]
  · intro hd
    simp only [get_next]
    rw [get_plugin_type_truthy, hd, if_pos rfl]
    split
    · exact store_next_item_played _ _ _ _
    · exact store_next_item_played _ _ _ _
  · intro hd hpos hshuf
    simp only [get_next]
    rw [get_plugin_type_truthy, hd]
    simp only [Option.isSome_none, Bool.false_eq_true, if_false]
    rw [if_pos ⟨hpos, by simp [hshuf]⟩]
    exact store_next_item_played _ _ _ _

/-- Witness for C7: a library-resolved next movie forces the played count to
the configured limit (3 in the fixture). -/
theorem C7_witness :
    (get_next exConstants exSettings { next_position := none, playlist_video := none, library_video := some { mediatype := some "movie", season := none, playcount := none, showtitle := "", set_name := "MSet" } } exState).1.played_in_a_row = 3 := by
  have h := ((C7_played_limit exConstants exSettings
    { next_position := none, playlist_video := none, library_video := some { mediatype := some "movie", season := none, playcount := none, showtitle := "", set_name := "MSet" } }
    exState).1 rfl (Or.inl rfl)).1
    { mediatype := some "movie", season := none, playcount := none, showtitle := "", set_name := "MSet" } rfl
  rw [h]
  with_unfolding_all rfl



theorem set_popup_time_eq_pos (C : Constants) (cfg : Settings)
    (chapters : List ℚ) (s : UpNextState) (tt : ℚ)
    (h : (popup_pipeline C cfg chapters s tt).1 ≠ 0) :
    set_popup_time C cfg chapters s tt =
      some (set_detect_time cfg { (popup_pipeline C cfg chapters s tt).2 with popup_time := (popup_pipeline C cfg chapters s tt).1 }) := by
  unfold set_popup_time
  rw [if_pos h]

theorem set_popup_time_eq_zero (C : Constants) (cfg : Settings)
    (chapters : List ℚ) (s : UpNextState) (tt : ℚ)
    (h : (popup_pipeline C cfg chapters s tt).1 = 0) :
    set_popup_time C cfg chapters s tt =
      Option.map (fun pc => set_detect_time cfg { (popup_pipeline C cfg chapters s tt).2 with popup_time := pc.1, popup_cue := pc.2 })
        (fallback_popup C cfg (effective_total cfg tt)) := by
  unfold set_popup_time
  rw [if_neg (fun hne => hne h)]
  rcases hfb : fallback_popup C cfg (effective_total cfg tt) with _ | pc
  · rfl
  · rfl

theorem popup_pipeline_plugin (C : Constants) (cfg : Settings)
    (chapters : List ℚ) (s : UpNextState) (tt : ℚ) (d : PluginData)
    (hd : s.data = some d)
    (hch : (chapter_popup cfg (effective_total cfg tt) chapters { s with total_time := tt }).1 = 0) :
    popup_pipeline C cfg chapters s tt =
      (if plugin_popup_time C d (effective_total cfg tt) ≠ 0 then (plugin_popup_time C d (effective_total cfg tt), { s with total_time := tt, popup_cue := (cfg.sim_cue ≠ SimCue.forceOff) }) else (0, { s with total_time := tt })) := by
  have hsnd := chapter_popup_zero_snd cfg (effective_total cfg tt) chapters
    { s with total_time := tt } hch
  unfold popup_pipeline plugin_step
  rw [hch, hsnd]
  rw [if_pos ?hc]
  case hc =>
    refine ⟨rfl, ?_⟩
    rw [get_plugin_type_truthy]
    show s.data.isSome = true
    rw [hd]
    rfl
  show (if plugin_popup_data C s.data (effective_total cfg tt) ≠ 0 then _ else _) = _
  rw [hd]
  simp only [plugin_popup_data]



/-- C1 (corrected): with plugin data active and no popup time from chapter
detection, the plugin-supplied notification duration before end is
preferred whenever it is at least the configured minimum popup duration and
less than total time, even when a notification offset is also supplied;
otherwise the notification offset from start is used (`plugin_raw_time`).
The resulting popup time is kept exactly when it lies in
`(0, total_time - POPUP_MIN_DURATION]`, enabling the cue point unless sim
mode forces it off; otherwise it is reset to 0 and the configured fallback
applies. -/
theorem C1_plugin_timing (C : Constants) (cfg : Settings)
    (chapters : List ℚ) (s : UpNextState) (tt : ℚ) (d : PluginData)
    (hd : s.data = some d)
    (hch : (chapter_popup cfg (effective_total cfg tt) chapters { s with total_time := tt }).1 = 0) :
    (0 < plugin_raw_time C d (effective_total cfg tt)
       ∧ plugin_raw_time C d (effective_total cfg tt) ≤ effective_total cfg tt - C.POPUP_MIN_DURATION →
      set_popup_time C cfg chapters s tt =
        some (set_detect_time cfg { s with total_time := tt, popup_time := plugin_raw_time C d (effective_total cfg tt), popup_cue := (cfg.sim_cue ≠ SimCue.forceOff) }))
    ∧ (¬ (0 < plugin_raw_time C d (effective_total cfg tt)
          ∧ plugin_raw_time C d (effective_total cfg tt) ≤ effective_total cfg tt - C.POPUP_MIN_DURATION) →
      set_popup_time C cfg chapters s tt =
        Option.map (fun pc => set_detect_time cfg { s with total_time := tt, popup_time := pc.1, popup_cue := pc.2 })
          (fallback_popup C cfg (effective_total cfg tt))) := by
  have hpp := popup_pipeline_plugin C cfg chapters s tt d hd hch
  constructor
  · intro hacc
    have hp : plugin_popup_time C d (effective_total cfg tt)
        = plugin_raw_time C d (effective_total cfg tt) := by
      unfold plugin_popup_time
      rw [if_pos hacc]
    have hne : plugin_popup_time C d (effective_total cfg tt) ≠ 0 := by
      rw [hp]
      exact ne_of_gt hacc.1
    rw [if_pos hne] at hpp
    have h1 : (popup_pipeline C cfg chapters s tt).1 ≠ 0 := by
      rw [hpp]
      exact hne
    rw [set_popup_time_eq_pos C cfg chapters s tt h1, hpp, hp]
  · intro hrej
    have hz : plugin_popup_time C d (effective_total cfg tt) = 0 := by
      unfold plugin_popup_time
      rw [if_neg hrej]
    rw [if_neg (fun hne => hne hz)] at hpp
    have h1 : (popup_pipeline C cfg chapters s tt).1 = 0 := by
      rw [hpp]
    rw [set_popup_time_eq_zero C cfg chapters s tt h1, hpp]

/-- C1 counterexample: a plugin supplying both `notification_offset = 500`
and `notification_time = 60` for an 1800 second video gets its popup at
1740 seconds (duration before end wins), not at the offset 500 that the
claim says is preferred. -/
theorem C1_counterexample :
    (set_popup_time exConstants exSettings []
        { exState with data := some exPluginTimed } 1800).map
      UpNextState.popup_time = some 1740
    ∧ (1740 : ℚ) ≠ 500 := by
  constructor
  · with_unfolding_all rfl
  · intro h
    exact absurd (congrArg Rat.num h) (by with_unfolding_all decide)

/-- Witness for C1 (corrected): the fixture plugin payload is accepted and
yields popup time 1740 with the cue enabled. -/
theorem C1_witness :
    set_popup_time exConstants exSettings []
        { exState with data := some exPluginTimed } 1800 =
      some (set_detect_time exSettings { { exState with data := some exPluginTimed } with total_time := 1800, popup_time := plugin_raw_time exConstants exPluginTimed (effective_total exSettings 1800), popup_cue := (exSettings.sim_cue ≠ SimCue.forceOff) }) :=
  (C1_plugin_timing exConstants exSettings []
      { exState with data := some exPluginTimed } 1800 exPluginTimed rfl
      (by with_unfolding_all rfl)).1
    ⟨of_decide_eq_true (by with_unfolding_all rfl),
     of_decide_eq_true (by with_unfolding_all rfl)⟩



theorem foldl_max_init_le (l : List ℚ) (a : ℚ) : a ≤ l.foldl max a := by
  induction l generalizing a with
  | nil => exact le_refl a
  | cons x xs ih => exact le_trans (le_max_left a x) (ih (max a x))

theorem foldl_max_mem_le :
    ∀ (l : List ℚ) (a x : ℚ), x ∈ l → x ≤ l.foldl max a
  | y :: ys, a, x, hx => by
      rcases List.mem_cons.mp hx with rfl | hmem
      · exact le_trans (le_max_right a x) (foldl_max_init_le ys (max a x))
      · exact foldl_max_mem_le ys (max a y) x hmem

theorem foldl_max_mem (l : List ℚ) (a : ℚ) :
    l.foldl max a = a ∨ l.foldl max a ∈ l := by
  induction l generalizing a with
  | nil => exact Or.inl rfl
  | cons x xs ih =>
    show List.foldl max (max a x) xs = a ∨ List.foldl max (max a x) xs ∈ x :: xs
    rcases ih (max a x) with h | h
    · rcases max_cases a x with ⟨hm, _⟩ | ⟨hm, _⟩
      · exact Or.inl (by rw [h, hm])
      · exact Or.inr (by rw [h, hm]; exact List.mem_cons_self x xs)
    · exact Or.inr (List.mem_cons_of_mem x h)

/-- C4 (corrected): when neither chapter detection nor plugin timing yields
a popup time, the fallback selects the duration mapped by the largest
threshold of `popup_durations` that is less than the (effective) total
playback time — the selected key is an upper bound of all qualifying
thresholds, is nonnegative, and is either 0 or itself a qualifying
threshold — and sets `popup_time` to total time minus that duration, or to
total time minus the minimum popup duration when the selected duration is
below the minimum or not less than total time; `popup_cue` is enabled only
when sim mode forces it on. -/
theorem C4_fallback_selection (C : Constants) (cfg : Settings)
    (chapters : List ℚ) (s : UpNextState) (tt : ℚ)
    (hps : (popup_pipeline C cfg chapters s tt).1 = 0) :
    (∀ k, k ∈ cfg.popup_durations.map Prod.fst → k < effective_total cfg tt →
      k ≤ ((cfg.popup_durations.map Prod.fst).filter (fun k => decide (k < effective_total cfg tt))).foldl max 0)
    ∧ (0 ≤ ((cfg.popup_durations.map Prod.fst).filter (fun k => decide (k < effective_total cfg tt))).foldl max 0
       ∧ (((cfg.popup_durations.map Prod.fst).filter (fun k => decide (k < effective_total cfg tt))).foldl max 0 = 0
          ∨ (((cfg.popup_durations.map Prod.fst).filter (fun k => decide (k < effective_total cfg tt))).foldl max 0 ∈ cfg.popup_durations.map Prod.fst
             ∧ ((cfg.popup_durations.map Prod.fst).filter (fun k => decide (k < effective_total cfg tt))).foldl max 0 < effective_total cfg tt)))
    ∧ (∀ dur, dictGet cfg.popup_durations (((cfg.popup_durations.map Prod.fst).filter (fun k => decide (k < effective_total cfg tt))).foldl max 0) = some dur →
      set_popup_time C cfg chapters s tt =
        some (set_detect_time cfg { s with total_time := tt, popup_time := (if C.POPUP_MIN_DURATION ≤ dur ∧ dur < effective_total cfg tt then effective_total cfg tt - dur else effective_total cfg tt - C.POPUP_MIN_DURATION), popup_cue := (cfg.sim_cue = SimCue.forceOn) })) := by
  refine ⟨?_, ⟨?_, ?_⟩, ?_⟩
  · intro k hk hlt
    exact foldl_max_mem_le _ 0 k
      (List.mem_filter.mpr ⟨hk, decide_eq_true hlt⟩)
  · exact foldl_max_init_le _ 0
  · rcases foldl_max_mem
      ((cfg.popup_durations.map Prod.fst).filter (fun k => decide (k < effective_total cfg tt))) 0 with h | h
    · exact Or.inl h
    · obtain ⟨hmem, hdec⟩ := List.mem_filter.mp h
      exact Or.inr ⟨hmem, of_decide_eq_true hdec⟩
  · intro dur hdur
    have hfb : fallback_popup C cfg (effective_total cfg tt) =
        some ((if C.POPUP_MIN_DURATION ≤ dur ∧ dur < effective_total cfg tt then effective_total cfg tt - dur else effective_total cfg tt - C.POPUP_MIN_DURATION), decide (cfg.sim_cue = SimCue.forceOn)) := by
      unfold fallback_popup
      rw [show fallback_popup_duration cfg (effective_total cfg tt) = some dur from hdur]
    rw [set_popup_time_eq_zero C cfg chapters s tt hps, hfb]
    obtain ⟨b, hb⟩ := popup_pipeline_snd C cfg chapters s tt
    rw [hb]
    rfl

/-- C4 counterexample: for the table with threshold 0 mapping to duration
500 and threshold 300 mapping to duration 60, at total time 1800 the code
selects the duration at the largest qualifying threshold (60, giving popup
time 1740), not the largest duration (500, which would give 1300 as the
claim's selection rule states). -/
theorem C4_counterexample :
    (set_popup_time exConstants { exSettings with popup_durations := [(0, 500), (300, 60)] } [] exState 1800).map UpNextState.popup_time = some 1740
    ∧ (1740 : ℚ) ≠ 1800 - 500 := by
  constructor
  · with_unfolding_all rfl
  · intro h
    exact absurd (congrArg Rat.num h) (by with_unfolding_all decide)

/-- Witness for C4 (corrected): the spec's example table selects duration
180 at threshold 1200 for total time 1800, giving popup time 1620 with the
cue disabled. -/
theorem C4_witness :
    set_popup_time exConstants exSettings [] exState 1800 =
      some (set_detect_time exSettings { exState with total_time := 1800, popup_time := (if exConstants.POPUP_MIN_DURATION ≤ 180 ∧ (180 : ℚ) < effective_total exSettings 1800 then effective_total exSettings 1800 - 180 else effective_total exSettings 1800 - exConstants.POPUP_MIN_DURATION), popup_cue := (exSettings.sim_cue = SimCue.forceOn) }) :=
  (C4_fallback_selection exConstants exSettings [] exState 1800
      (by with_unfolding_all rfl)).2.2 180 (by with_unfolding_all rfl)



theorem credits_candidates_eq (T : ℚ) (chapters : List ℚ) (hT : 10 < T) :
    valid_chapters T chapters = credits_candidates T chapters := by
  unfold valid_chapters credits_candidates
  apply List.filter_congr
  intro c _
  apply decide_eq_decide.mpr
  unfold min_threshold
  rw [if_pos hT]
  have hT0 : (0 : ℚ) < T := lt_trans (by norm_num) hT
  have h1 : (T - 10) / T * 100 = (T - 10) * 100 / T := by ring
  have h2 : c / 100 * T = c * T / 100 := by ring
  rw [h1, lt_div_iff₀ hT0, h2, div_lt_iff₀ (show (0 : ℚ) < 100 by norm_num)]

/-- C5: chapter-based end-credit detection first discards chapters starting
within the last 10 seconds of the video; with fewer than 2 remaining
chapters it yields no result; otherwise, if exactly one remaining chapter
is at or past 70 percent of the duration and that chapter is at or past 90
percent, it returns that chapter's start converted to seconds of
total time; otherwise it returns the last remaining chapter's start exactly
when that chapter is at or past the configured threshold percentage, and no
result if not. -/
theorem C5_chapter_rules (T thr : ℚ) (chapters : List ℚ) (hT : 10 < T) :
    ((credits_candidates T chapters).length < 2 →
      get_final_chapter_time T thr chapters = none)
    ∧ (∀ c, 2 ≤ (credits_candidates T chapters).length →
      (credits_candidates T chapters).filter (fun x => decide (70 ≤ x)) = [c] →
      90 ≤ c →
      get_final_chapter_time T thr chapters = some (pyInt (c / 100 * T)))
    ∧ (2 ≤ (credits_candidates T chapters).length →
      (((credits_candidates T chapters).filter (fun x => decide (70 ≤ x))).length ≠ 1
        ∨ ¬ 90 ≤ ((credits_candidates T chapters).filter (fun x => decide (70 ≤ x))).headD 0) →
      get_final_chapter_time T thr chapters =
        (if thr ≤ (credits_candidates T chapters).getLastD 0 then some (pyInt ((credits_candidates T chapters).getLastD 0 / 100 * T)) else none)) := by
  have hvc := credits_candidates_eq T chapters hT
  refine ⟨?_, ?_, ?_⟩
  · intro hlen
    unfold get_final_chapter_time
    by_cases hc : chapters.length < 2
    · rw [if_pos hc]
    · rw [if_neg hc, if_pos (by rw [hvc]; exact hlen)]
  · intro c hlen h70 h90
    have hchap : ¬ chapters.length < 2 :=
      not_lt.mpr (le_trans hlen (by rw [← hvc]; exact List.length_filter_le _ _))
    have h30 : chapters_in_last_30 T chapters = [c] := by
      unfold chapters_in_last_30
      rw [hvc, h70]
    unfold get_final_chapter_time
    rw [if_neg hchap, if_neg (by rw [hvc]; exact not_lt.mpr hlen), h30,
      if_pos ⟨rfl, by simpa using h90⟩]
    rfl
  · intro hlen hneg
    have hchap : ¬ chapters.length < 2 :=
      not_lt.mpr (le_trans hlen (by rw [← hvc]; exact List.length_filter_le _ _))
    have h30 : chapters_in_last_30 T chapters =
        (credits_candidates T chapters).filter (fun x => decide (70 ≤ x)) := by
      unfold chapters_in_last_30
      rw [hvc]
    unfold get_final_chapter_time
    rw [if_neg hchap, if_neg (by rw [hvc]; exact not_lt.mpr hlen), h30,
      if_neg ?hcon, hvc]
    case hcon =>
      intro hcon
      rcases hneg with hn | hn
      · exact hn hcon.1
      · exact hn hcon.2

/-- Witness for C5: chapters at 50 and 92 percent of a 1200 second video
give high-confidence credits onset at 1104 seconds. -/
theorem C5_witness :
    get_final_chapter_time 1200 80 [50, 92] = some (pyInt (92 / 100 * 1200)) :=
  (C5_chapter_rules 1200 80 [50, 92]
      (of_decide_eq_true (by with_unfolding_all rfl))).2.1 92
    (of_decide_eq_true (by with_unfolding_all rfl))
    (by with_unfolding_all rfl)
    (of_decide_eq_true (by with_unfolding_all rfl))



theorem pyInt_nonneg (q : ℚ) (h : 0 ≤ q) : 0 ≤ pyInt q := by
  unfold pyInt
  rw [if_pos h]
  exact Int.floor_nonneg.mpr h

theorem pyInt_le_self (q : ℚ) (h : 0 ≤ q) : (pyInt q : ℚ) ≤ q := by
  unfold pyInt
  rw [if_pos h]
  exact Int.floor_le q

theorem headD_mem {l : List ℚ} (h : l ≠ []) : l.headD 0 ∈ l := by
  cases l with
  | nil => exact absurd rfl h
  | cons a t => exact List.mem_cons_self a t

theorem getLastD_mem {l : List ℚ} (h : l ≠ []) : l.getLastD 0 ∈ l := by
  rw [List.getLastD_eq_getLast?, List.getLast?_eq_getLast _ h, Option.getD_some]
  exact List.getLast_mem h

theorem chapter_sec_bounds (T c : ℚ) (hc0 : 0 ≤ c)
    (hmem : c < min_threshold T) :
    0 ≤ pyInt (c / 100 * T) ∧ (pyInt (c / 100 * T) : ℚ) ≤ T := by
  unfold min_threshold at hmem
  by_cases hT : T > 10
  · rw [if_pos hT] at hmem
    have hT0 : (0 : ℚ) < T := by linarith
    have hx0 : 0 ≤ c / 100 * T := by positivity
    have hxlt : c / 100 * T < T - 10 := by
      have h1 : (T - 10) / T * 100 = (T - 10) * 100 / T := by ring
      rw [h1, lt_div_iff₀ hT0] at hmem
      have h2 : c / 100 * T = c * T / 100 := by ring
      rw [h2, div_lt_iff₀ (show (0 : ℚ) < 100 by norm_num)]
      linarith
    refine ⟨pyInt_nonneg _ hx0, ?_⟩
    calc (pyInt (c / 100 * T) : ℚ) ≤ c / 100 * T := pyInt_le_self _ hx0
      _ ≤ T := by linarith
  · rw [if_neg hT] at hmem
    exact absurd hmem (not_lt.mpr hc0)

theorem get_final_chapter_time_bounds (T thr : ℚ) (chapters : List ℚ)
    (ct : ℤ) (hthr : 0 ≤ thr)
    (h : get_final_chapter_time T thr chapters = some ct) :
    0 ≤ ct ∧ (ct : ℚ) ≤ T := by
  unfold get_final_chapter_time at h
  split at h
  · exact absurd h (by simp)
  · split at h
    · exact absurd h (by simp)
    · next hvlen =>
        split at h
        · next hcond =>
            injection h with h
            subst h
            have hne : chapters_in_last_30 T chapters ≠ [] := by
              intro hnil
              rw [hnil] at hcond
              exact absurd hcond.1 (by simp)
            have hmem30 := headD_mem hne
            unfold chapters_in_last_30 at hmem30
            have hmemv := (List.mem_filter.mp hmem30).1
            unfold valid_chapters at hmemv
            have hclt : (chapters_in_last_30 T chapters).headD 0
                < min_threshold T :=
              of_decide_eq_true (List.mem_filter.mp hmemv).2
            exact chapter_sec_bounds T _ (by linarith [hcond.2]) hclt
        · split at h
          · next hth2 =>
              injection h with h
              subst h
              have hne : valid_chapters T chapters ≠ [] := by
                intro hnil
                rw [hnil] at hvlen
                exact hvlen (by simp)
              have hmemv := getLastD_mem hne
              unfold valid_chapters at hmemv
              have hclt : (valid_chapters T chapters).getLastD 0
                  < min_threshold T :=
                of_decide_eq_true (List.mem_filter.mp hmemv).2
              exact chapter_sec_bounds T _ (le_trans hthr hth2) hclt
          · exact absurd h (by simp)



theorem plugin_popup_data_cases (C : Constants) (od : Option PluginData)
    (T : ℚ) :
    plugin_popup_data C od T = 0
    ∨ (0 < plugin_popup_data C od T
       ∧ plugin_popup_data C od T ≤ T - C.POPUP_MIN_DURATION) := by
  cases od
  · exact Or.inl rfl
  · exact plugin_popup_time_cases C _ T

theorem chapter_popup_fst_bounds (cfg : Settings) (T : ℚ)
    (chapters : List ℚ) (s : UpNextState)
    (hthr : 0 ≤ cfg.detect_chapters_threshold) :
    (chapter_popup cfg T chapters s).1 = 0
    ∨ (0 ≤ (chapter_popup cfg T chapters s).1
       ∧ (chapter_popup cfg T chapters s).1 ≤ T) := by
  unfold chapter_popup
  split
  · next hc =>
      right
      obtain ⟨n, hg, hn0⟩ := (truthy_iff _).mp hc.2
      have hb := get_final_chapter_time_bounds T
        cfg.detect_chapters_threshold chapters n hthr hg
      rw [hg]
      simp only [Option.getD_some]
      exact ⟨by exact_mod_cast hb.1, hb.2⟩
  · exact Or.inl rfl

theorem popup_pipeline_fst_bounds (C : Constants) (cfg : Settings)
    (chapters : List ℚ) (s : UpNextState) (tt : ℚ)
    (hthr : 0 ≤ cfg.detect_chapters_threshold)
    (hmin : 0 ≤ C.POPUP_MIN_DURATION) :
    (popup_pipeline C cfg chapters s tt).1 = 0
    ∨ (0 ≤ (popup_pipeline C cfg chapters s tt).1
       ∧ (popup_pipeline C cfg chapters s tt).1 ≤ effective_total cfg tt) := by
  unfold popup_pipeline plugin_step
  split
  · split
    · next hne =>
        rcases plugin_popup_data_cases C
          (chapter_popup cfg (effective_total cfg tt) chapters
            { s with total_time := tt }).2.data (effective_total cfg tt)
          with h0 | ⟨h1, h2⟩
        · exact absurd h0 hne
        · exact Or.inr ⟨le_of_lt h1, le_trans h2 (sub_le_self _ hmin)⟩
    · exact Or.inl rfl
  · exact chapter_popup_fst_bounds cfg (effective_total cfg tt) chapters
      { s with total_time := tt } hthr

theorem fallback_popup_bounds (C : Constants) (cfg : Settings) (T : ℚ)
    (pc : ℚ × Bool)
    (hmin : 0 ≤ C.POPUP_MIN_DURATION) (hMT : C.POPUP_MIN_DURATION ≤ T)
    (h : fallback_popup C cfg T = some pc) :
    0 ≤ pc.1 ∧ pc.1 ≤ T := by
  unfold fallback_popup at h
  split at h
  · exact absurd h (by simp)
  · next dur heq =>
      injection h with h
      subst h
      show 0 ≤ (if C.POPUP_MIN_DURATION ≤ dur ∧ dur < T then T - dur else T - C.POPUP_MIN_DURATION) ∧ (if C.POPUP_MIN_DURATION ≤ dur ∧ dur < T then T - dur else T - C.POPUP_MIN_DURATION) ≤ T
      split
      · next hc => exact ⟨by linarith [hc.1, hc.2], by linarith [hc.1]⟩
      · exact ⟨by linarith, by linarith⟩

theorem effective_total_le (cfg : Settings) (tt : ℚ) :
    effective_total cfg tt ≤ tt := by
  unfold effective_total
  split
  · linarith
  · exact le_refl tt



/-- C2 (corrected): the resulting `popup_time` lies in `[0, total_time]`
for `set_detected_popup_time` whenever the detected time itself lies in
`[0, total_time]`, and for every successful `set_popup_time` call whenever
the minimum popup duration is nonnegative and at most the effective total
time and the chapter-detection threshold is nonnegative. -/
theorem C2_popup_time_range :
    (∀ cfg s dt, 0 ≤ dt → dt ≤ s.total_time →
      0 ≤ (set_detected_popup_time cfg s dt).popup_time
      ∧ (set_detected_popup_time cfg s dt).popup_time
        ≤ (set_detected_popup_time cfg s dt).total_time)
    ∧ (∀ C cfg chapters s tt st,
      0 ≤ C.POPUP_MIN_DURATION →
      0 ≤ cfg.detect_chapters_threshold →
      C.POPUP_MIN_DURATION ≤ effective_total cfg tt →
      set_popup_time C cfg chapters s tt = some st →
      0 ≤ st.popup_time ∧ st.popup_time ≤ st.total_time) := by
  constructor
  · intro cfg s dt h0 h1
    unfold set_detected_popup_time
    split
    · rw [set_detect_time_popup_time, set_detect_time_total_time]
      exact ⟨h0, h1⟩
    · rw [set_detect_time_popup_time, set_detect_time_total_time]
      exact ⟨le_refl 0, le_trans h0 h1⟩
  · intro C cfg chapters s tt st hmin hthr hMT h
    have hTt := effective_total_le cfg tt
    obtain ⟨b, hb⟩ := popup_pipeline_snd C cfg chapters s tt
    unfold set_popup_time at h
    split at h
    · next hne =>
        injection h with h
        subst h
        rw [set_detect_time_popup_time, set_detect_time_total_time]
        rcases popup_pipeline_fst_bounds C cfg chapters s tt hthr hmin
          with h0 | ⟨hge, hle⟩
        · exact absurd h0 hne
        · constructor
          · exact hge
          · show (popup_pipeline C cfg chapters s tt).1
              ≤ ({ (popup_pipeline C cfg chapters s tt).2 with popup_time := (popup_pipeline C cfg chapters s tt).1 } : UpNextState).total_time
            rw [hb]
            show (popup_pipeline C cfg chapters s tt).1 ≤ tt
            linarith
    · rcases hfb : fallback_popup C cfg (effective_total cfg tt) with _ | pc
      · rw [hfb] at h
        exact absurd h (by simp)
      · rw [hfb] at h
        injection h with h
        subst h
        rw [set_detect_time_popup_time, set_detect_time_total_time]
        have hbd := fallback_popup_bounds C cfg (effective_total cfg tt) pc
          hmin hMT hfb
        constructor
        · exact hbd.1
        · show pc.1 ≤ ({ (popup_pipeline C cfg chapters s tt).2 with popup_time := pc.1, popup_cue := pc.2 } : UpNextState).total_time
          rw [hb]
          show pc.1 ≤ tt
          linarith [hbd.2]

/-- C2 counterexample: a detected time of 200 seconds in a 100 second
session leaves `popup_time` outside `[0, total_time]`, and a 2 second video
with the minimal fallback table drives `popup_time` to -3. -/
theorem C2_counterexample :
    ((set_detected_popup_time exSettings { exState with total_time := 100 } 200).popup_time = 200
      ∧ ¬ (set_detected_popup_time exSettings { exState with total_time := 100 } 200).popup_time
          ≤ (set_detected_popup_time exSettings { exState with total_time := 100 } 200).total_time)
    ∧ ((set_popup_time exConstants { exSettings with popup_durations := [(0, 0)] } [] exState 2).map UpNextState.popup_time = some (-3)
      ∧ ¬ (0 : ℚ) ≤ -3) := by
  refine ⟨⟨?_, ?_⟩, ?_, ?_⟩
  · with_unfolding_all rfl
  · exact of_decide_eq_true (by with_unfolding_all rfl)
  · with_unfolding_all rfl
  · exact of_decide_eq_true (by with_unfolding_all rfl)

/-- Witness for C2 (corrected): a detected time of 1500 in an 1800 second
session and the fixture `set_popup_time` run both keep `popup_time` within
`[0, total_time]`. -/
theorem C2_witness :
    (0 ≤ (set_detected_popup_time exSettings { exState with total_time := 1800 } 1500).popup_time
      ∧ (set_detected_popup_time exSettings { exState with total_time := 1800 } 1500).popup_time
        ≤ (set_detected_popup_time exSettings { exState with total_time := 1800 } 1500).total_time)
    ∧ (0 ≤ exPopupResult.popup_time
      ∧ exPopupResult.popup_time ≤ exPopupResult.total_time) :=
  ⟨C2_popup_time_range.1 exSettings { exState with total_time := 1800 } 1500
      (of_decide_eq_true (by with_unfolding_all rfl))
      (of_decide_eq_true (by with_unfolding_all rfl)),
   C2_popup_time_range.2 exConstants exSettings [] exState 1800 exPopupResult
      (of_decide_eq_true (by with_unfolding_all rfl))
      (of_decide_eq_true (by with_unfolding_all rfl))
      (of_decide_eq_true (by with_unfolding_all rfl))
      (by with_unfolding_all rfl)⟩


end UpNext
